import Mathlib

/-!
# SubstanceGroup wrapper of RDKit (`Code/GraphMol/Wrap/SubstanceGroup.cpp`)

A shallow embedding of the functions of the wrapper file and of the part of
the `SubstanceGroup` core they call.

* A molecule is a record with the vector of its substance groups.
* A `SubstanceGroup*` / `SubstanceGroup&` is the address of a vector element;
  the address is represented by the vector it lies in and the position in it
  (`SGroupRef`).  Reallocation of vector storage is not represented.
* A function that mutates its arguments returns its outcome together with the
  state it leaves behind, so that "fails before mutating" can be stated.
* An exception is a value of `PyErr`, named after the Python exception that
  the wrapper raises.
-/

namespace RDKit

/-- Exceptions seen by the caller.  `indexError` is what `throw_index_error`
raises (the spec's IndexOutOfRange; the key it carries is not represented),
`valueError` is what `throw_value_error` raises (the spec's InvalidArgument),
`overflowError` is raised by the conversion of a Python integer that does not
fit the C++ integer type, `invalidState` is the spec's InvalidState. -/
inductive PyErr where
  | indexError
  | valueError (msg : String)
  | overflowError
  | invalidState
deriving DecidableEq

deriving instance DecidableEq for Except

/-- A point of `RDGeom::Point3D`.  The coordinates are doubles in the source;
the wrapper only copies points, it never computes with them, so the carrier of
a coordinate is immaterial and integers are used. -/
structure Point3D where
  x : Int
  y : Int
  z : Int
deriving DecidableEq

/-- Modelled from the spec: the default constructor of `RDGeom::Point3D`
(declared in `Geometry/point.h`, outside the wrapper file) yields the
origin. -/
def Point3D.origin : Point3D := ⟨0, 0, 0⟩

/-- Modelled from the spec: `SubstanceGroup::Bracket`, declared in
`GraphMol/SubstanceGroup.h`, outside the wrapper file.  The wrapper
default-constructs it and assigns `bkt[0]`, `bkt[1]`, `bkt[2]`: an array of
three points. -/
structure Bracket where
  p0 : Point3D
  p1 : Point3D
  p2 : Point3D
deriving DecidableEq

/-- Default construction of a bracket: every slot is a default point. -/
def Bracket.default : Bracket := ⟨Point3D.origin, Point3D.origin, Point3D.origin⟩

/-- The assignment `bkt[i] = p`. -/
def Bracket.set (bkt : Bracket) (i : Nat) (p : Point3D) : Bracket :=
  match i with
  | 0 => { bkt with p0 := p }
  | 1 => { bkt with p1 := p }
  | 2 => { bkt with p2 := p }
  | _ => bkt

/-- The read `bkt[i]`. -/
def Bracket.get? (bkt : Bracket) (i : Nat) : Option Point3D :=
  match i with
  | 0 => some bkt.p0
  | 1 => some bkt.p1
  | 2 => some bkt.p2
  | _ => none

/-- The fields of `SubstanceGroup` that the wrapper reaches: the owning
molecule `dp_mol` (an address), the type string given to the constructor, the
index sequences and the brackets.  The property store, the attachment points
and the connectivity states are left out. -/
structure SubstanceGroup where
  owner : Nat
  type : String
  atoms : List Nat
  patoms : List Nat
  bonds : List Nat
  brackets : List Bracket
deriving DecidableEq

/-- The part of `ROMol` that the wrapper reaches: its identity (the address
`&mol`), the number of atoms and bonds, and the vector of substance groups. -/
structure ROMol where
  addr : Nat
  numAtoms : Nat
  numBonds : Nat
  sgroups : List SubstanceGroup
deriving DecidableEq

/-- What a caller of the wrapper holds: the molecule, and the vectors that
`GetMolSubstanceGroups` returned to it so far (each one a
`SubstanceGroup_VECT` owned by the caller). -/
structure World where
  mol : ROMol
  vects : List (List SubstanceGroup)
deriving DecidableEq

/-- The address of a `SubstanceGroup` object: element `idx` of the molecule's
own vector, or element `idx` of the caller-owned vector number `v`. -/
inductive SGroupRef where
  | inMol (idx : Nat)
  | inVect (v : Nat) (idx : Nat)
deriving DecidableEq

/-- The object found at an address, if one lives there. -/
def World.deref (w : World) : SGroupRef → Option SubstanceGroup
  | .inMol idx => w.mol.sgroups[idx]?
  | .inVect v idx => (w.vects[v]?).bind (fun vec => vec[idx]?)

/-- Overwrite the object at an address. -/
def World.store (w : World) (r : SGroupRef) (g : SubstanceGroup) : World :=
  match r with
  | .inMol idx => { w with mol := { w.mol with sgroups := w.mol.sgroups.set idx g } }
  | .inVect v idx => { w with vects := w.vects.modify (fun vec => vec.set idx g) v }

/-- Follow an owner pointer `dp_mol`: the world holds one molecule. -/
def World.molAt (w : World) (a : Nat) : Option ROMol :=
  if a = w.mol.addr then some w.mol else none

/-- Replace the molecule of a world. -/
def World.withMol (w : World) (m : ROMol) : World := { w with mol := m }

/-! ## Core functions called by the wrapper (defined outside the wrapper file) -/

/-- Modelled from the spec: `getSubstanceGroups(mol)`, the accessor of the
molecule's GroupRegistry ("per-molecule ordered sequence of SubstanceGroup"). -/
def getSubstanceGroups (mol : ROMol) : List SubstanceGroup := mol.sgroups

/-- Modelled from the spec: the constructor `SubstanceGroup(&mol, type)`
("owner: set at construction", "groupType: set at construction"); the
sequences start empty. -/
def SubstanceGroup.new (owner : Nat) (type : String) : SubstanceGroup :=
  { owner := owner, type := type, atoms := [], patoms := [], bonds := [], brackets := [] }

/-- Modelled from the spec: `addSubstanceGroup(mol, sg)` ("constructs a
SubstanceGroup bound to molecule, appends it", "GroupRegistry allocates and
appends it, back-linking it to the molecule"). -/
def addSubstanceGroup (mol : ROMol) (sg : SubstanceGroup) : ROMol :=
  { mol with sgroups := mol.sgroups ++ [{ sg with owner := mol.addr }] }

/-- Modelled from the spec: `SubstanceGroup::getOwningMol` ("returns the
back-reference"); on a detached group it fails with InvalidState. -/
def SubstanceGroup.getOwningMol (w : World) (self : SGroupRef) : Except PyErr Nat :=
  match w.deref self with
  | none => .error .invalidState
  | some g => .ok g.owner

/-- Modelled from the spec: `SubstanceGroup::getIndexInMol` ("returns the
current position in the owner's registry; fails with InvalidState if the group
has been detached"): the registry of the owner is searched for the entry that
is this very object. -/
def SubstanceGroup.getIndexInMol (w : World) (self : SGroupRef) : Except PyErr Nat :=
  match (List.range (getSubstanceGroups w.mol).length).find?
      (fun i => decide (SGroupRef.inMol i = self)) with
  | some i => .ok i
  | none => .error .invalidState

/-- Modelled from the spec: `SubstanceGroup::getAtoms` ("return read-only
views of the respective sequences, in insertion order"); the wrapper hands out
a copy (`copy_const_reference`). -/
def SubstanceGroup.getAtoms (w : World) (self : SGroupRef) : Except PyErr (List Nat) :=
  match w.deref self with
  | none => .error .invalidState
  | some g => .ok g.atoms

/-- Modelled from the spec: `SubstanceGroup::addAtomWithIdx` ("append to the
respective sequence", "AddAtomWithIdx(idx) with idx >= M.AtomCount() fails
with IndexOutOfRange", "bounds-checked against the owner at call time"). -/
def SubstanceGroup.addAtomWithIdx (w : World) (self : SGroupRef) (idx : Nat) :
    Except PyErr Unit × World :=
  match w.deref self with
  | none => (.error .invalidState, w)
  | some g =>
    match w.molAt g.owner with
    | none => (.error .invalidState, w)
    | some owner =>
      if idx ≥ owner.numAtoms then (.error .indexError, w)
      else (.ok (), w.store self { g with atoms := g.atoms ++ [idx] })

/-- Modelled from the spec: `SubstanceGroup::addBracket` ("appends a new
Bracket"); on a detached group it fails with InvalidState. -/
def SubstanceGroup.addBracket (w : World) (self : SGroupRef) (bkt : Bracket) :
    Except PyErr Unit × World :=
  match w.deref self with
  | none => (.error .invalidState, w)
  | some g => (.ok (), w.store self { g with brackets := g.brackets ++ [bkt] })

/-! ## The functions of the wrapper file -/

/-- The result of `getMolSubstanceGroupWithIdx`: the address of `sgs[idx]`, or
the index error. -/
def getMolSubstanceGroupWithIdx (mol : ROMol) (idx : Nat) : Except PyErr SGroupRef :=
  let sgs := getSubstanceGroups mol
  if idx ≥ sgs.length then .error .indexError
  else .ok (.inMol idx)

/-- The result of `getMolSubstanceGroups`: the vector, returned by value. -/
def getMolSubstanceGroups (mol : ROMol) : List SubstanceGroup :=
  getSubstanceGroups mol

/-- The molecule after `clearMolSubstanceGroups`: `sgs.clear()`. -/
def clearMolSubstanceGroups (mol : ROMol) : ROMol :=
  { mol with sgroups := [] }

/-- The result of `createMolSubstanceGroup`: the address of
`getSubstanceGroups(mol).back()` and the molecule after `addSubstanceGroup`. -/
def createMolSubstanceGroup (mol : ROMol) (type : String) : SGroupRef × ROMol :=
  let sg := SubstanceGroup.new mol.addr type
  let mol1 := addSubstanceGroup mol sg
  (.inMol ((getSubstanceGroups mol1).length - 1), mol1)

/-- The conversion `python::extract<unsigned int>` of a non-negative Python
integer: a value that does not fit 32 bits raises OverflowError. -/
def extractUnsignedInt (n : Nat) : Except PyErr Nat :=
  if n < 4294967296 then .ok n else .error .overflowError

/-- The loop of `addBracketHelper`: `for (i; i < sz; ++i) { bkt[i] = *beg; ++beg; }`,
with `beg` the not yet consumed part of `pts`.  As `sz` is the length of
`pts`, the iterator is never read past its end. -/
def addBracketHelper.loop (sz : Nat) : Nat → List Point3D → Bracket → Bracket
  | _, [], bkt => bkt
  | i, p :: beg, bkt =>
    if i < sz then addBracketHelper.loop sz (i + 1) beg (bkt.set i p) else bkt

/-- The bracket that `addBracketHelper` builds from `sz` and `pts`. -/
def addBracketHelper.bracket (sz : Nat) (pts : List Point3D) : Bracket :=
  addBracketHelper.loop sz 0 pts Bracket.default

/-- The outcome of `addBracketHelper(self, pts)` and the world it leaves:
`pts` is a Python sequence of points, its `__len__()` is converted to
`unsigned int`, a length other than 2 or 3 raises the value error, otherwise
the bracket is filled and handed to `self.addBracket`. -/
def addBracketHelper (w : World) (self : SGroupRef) (pts : List Point3D) :
    Except PyErr Unit × World :=
  match extractUnsignedInt pts.length with
  | .error e => (.error e, w)
  | .ok sz =>
    if sz ≠ 2 ∧ sz ≠ 3 then
      (.error (.valueError "pts object have a length of 2 or 3"), w)
    else
      SubstanceGroup.addBracket w self (addBracketHelper.bracket sz pts)

/-- The Python call `GetMolSubstanceGroups(mol)`: the copy returned by
`getMolSubstanceGroups` becomes a new caller-owned vector; its number is
returned. -/
def World.callGetMolSubstanceGroups (w : World) : Nat × World :=
  (w.vects.length, { w with vects := w.vects ++ [getMolSubstanceGroups w.mol] })

/-- The Python call `ClearMolSubstanceGroups(mol)`. -/
def World.callClearMolSubstanceGroups (w : World) : World :=
  w.withMol (clearMolSubstanceGroups w.mol)

/-- The Python call `CreateMolSubstanceGroup(mol, type)`: the handle that the
caller receives and the world afterwards. -/
def World.callCreateMolSubstanceGroup (w : World) (type : String) : SGroupRef × World :=
  ((createMolSubstanceGroup w.mol type).1, w.withMol (createMolSubstanceGroup w.mol type).2)

/-- Operations on a group handle, among those bound in `sgroup_wrap::wrap`. -/
inductive Op where
  | getOwningMol
  | getIndexInMol
  | getAtoms
  | addAtomWithIdx (idx : Nat)
  | addBracket (pts : List Point3D)
deriving DecidableEq

/-- What an operation on a handle returns. -/
inductive Val where
  | none
  | nat (n : Nat)
  | nats (l : List Nat)
deriving DecidableEq

/-- One operation on the handle `self`, as bound in `sgroup_wrap::wrap`. -/
def World.call (w : World) (self : SGroupRef) : Op → Except PyErr Val × World
  | .getOwningMol => ((SubstanceGroup.getOwningMol w self).map Val.nat, w)
  | .getIndexInMol => ((SubstanceGroup.getIndexInMol w self).map Val.nat, w)
  | .getAtoms => ((SubstanceGroup.getAtoms w self).map Val.nats, w)
  | .addAtomWithIdx idx =>
    ((SubstanceGroup.addAtomWithIdx w self idx).1.map (fun _ => Val.none),
     (SubstanceGroup.addAtomWithIdx w self idx).2)
  | .addBracket pts =>
    ((addBracketHelper w self pts).1.map (fun _ => Val.none), (addBracketHelper w self pts).2)

/-! ## Example data -/

/-- A molecule with three atoms, two bonds and no substance group. -/
def exMol : ROMol := { addr := 7, numAtoms := 3, numBonds := 2, sgroups := [] }

/-- The world of a caller that holds `exMol` and no vector. -/
def exWorld : World := { mol := exMol, vects := [] }

/-- The world after creating an "SRU" group and a "DAT" group in `exMol`. -/
def exWorld2 : World :=
  exWorld.withMol
    (createMolSubstanceGroup (createMolSubstanceGroup exMol "SRU").2 "DAT").2

/-! ## Auxiliary facts -/

theorem range_find_inMol_lt (n k : Nat) (h : k < n) :
    (List.range n).find? (fun i => decide (SGroupRef.inMol i = SGroupRef.inMol k)) = some k := by
  induction n with
  | zero => omega
  | succ n ih =>
    rw [List.range_succ, List.find?_append]
    by_cases hk : k < n
    · rw [ih hk]; rfl
    · have hkn : k = n := by omega
      subst hkn
      have hnone : (List.range k).find?
          (fun i => decide (SGroupRef.inMol i = SGroupRef.inMol k)) = none := by
        rw [List.find?_eq_none]
        intro x hx
        have hlt : x < k := List.mem_range.mp hx
        simp only [decide_eq_true_eq, SGroupRef.inMol.injEq]
        omega
      rw [hnone]
      simp

theorem getIndexInMol_inMol_lt (w : World) (k : Nat) (h : k < w.mol.sgroups.length) :
    SubstanceGroup.getIndexInMol w (.inMol k) = .ok k := by
  unfold SubstanceGroup.getIndexInMol getSubstanceGroups
  rw [range_find_inMol_lt _ _ h]

theorem deref_store_same (w : World) (r : SGroupRef) (g g1 : SubstanceGroup)
    (h : w.deref r = some g) : (w.store r g1).deref r = some g1 := by
  cases r with
  | inMol idx =>
    simp only [World.deref] at h
    have hlt : idx < w.mol.sgroups.length := (List.getElem?_eq_some.mp h).1
    simp only [World.deref, World.store, List.getElem?_set]
    simp [hlt]
  | inVect v idx =>
    simp only [World.deref] at h
    cases hv : w.vects[v]? with
    | none => rw [hv] at h; cases h
    | some vec =>
      rw [hv] at h
      simp only [Option.some_bind] at h
      have hlt : idx < vec.length := (List.getElem?_eq_some.mp h).1
      simp only [World.deref, World.store, List.getElem?_modify, hv]
      simp [List.getElem?_set, hlt]

theorem deref_store_inMol_other (w : World) (i j : Nat) (g1 : SubstanceGroup) (h : j ≠ i) :
    (w.store (.inMol i) g1).mol.sgroups[j]? = w.mol.sgroups[j]? := by
  simp only [World.store, List.getElem?_set]
  rw [if_neg (fun hc => h hc.symm)]

theorem store_inMol_length (w : World) (i : Nat) (g1 : SubstanceGroup) :
    (w.store (.inMol i) g1).mol.sgroups.length = w.mol.sgroups.length := by
  simp [World.store]

theorem extractUnsignedInt_fits (n : Nat) (h : n < 4294967296) :
    extractUnsignedInt n = .ok n := by
  unfold extractUnsignedInt
  rw [if_pos h]

theorem extractUnsignedInt_overflow (n : Nat) (h : 4294967296 ≤ n) :
    extractUnsignedInt n = .error .overflowError := by
  unfold extractUnsignedInt
  rw [if_neg (by omega)]

theorem addBracketHelper_overflow (w : World) (self : SGroupRef) (pts : List Point3D)
    (h : 4294967296 ≤ pts.length) :
    addBracketHelper w self pts = (.error .overflowError, w) := by
  unfold addBracketHelper
  rw [extractUnsignedInt_overflow _ h]

theorem addBracketHelper_badlen (w : World) (self : SGroupRef) (pts : List Point3D)
    (h : pts.length < 4294967296) (h2 : pts.length ≠ 2) (h3 : pts.length ≠ 3) :
    addBracketHelper w self pts
      = (.error (.valueError "pts object have a length of 2 or 3"), w) := by
  unfold addBracketHelper
  rw [extractUnsignedInt_fits _ h]
  simp only [ne_eq, h2, h3, not_false_eq_true, and_self, if_true]

theorem addBracketHelper_goodlen (w : World) (self : SGroupRef) (pts : List Point3D)
    (h : pts.length = 2 ∨ pts.length = 3) :
    addBracketHelper w self pts
      = SubstanceGroup.addBracket w self (addBracketHelper.bracket pts.length pts) := by
  have hfit : pts.length < 4294967296 := by omega
  unfold addBracketHelper
  rw [extractUnsignedInt_fits _ hfit]
  have hc : ¬ (pts.length ≠ 2 ∧ pts.length ≠ 3) := by omega
  simp only [if_neg hc]

theorem addBracketHelper_refused (w : World) (self : SGroupRef) (pts : List Point3D)
    (h : ¬ (pts.length = 2 ∨ pts.length = 3)) :
    (addBracketHelper w self pts).2 = w := by
  by_cases hfit : pts.length < 4294967296
  · rw [addBracketHelper_badlen w self pts hfit (by omega) (by omega)]
  · rw [addBracketHelper_overflow w self pts (by omega)]

theorem bracket_two (a b : Point3D) :
    addBracketHelper.bracket 2 [a, b] = ⟨a, b, Point3D.origin⟩ := by
  simp [addBracketHelper.bracket, addBracketHelper.loop, Bracket.set, Bracket.default]

theorem bracket_three (a b c : Point3D) :
    addBracketHelper.bracket 3 [a, b, c] = ⟨a, b, c⟩ := by
  simp [addBracketHelper.bracket, addBracketHelper.loop, Bracket.set, Bracket.default]

theorem addBracket_live (w : World) (self : SGroupRef) (g : SubstanceGroup) (bkt : Bracket)
    (h : w.deref self = some g) :
    SubstanceGroup.addBracket w self bkt
      = (.ok (), w.store self { g with brackets := g.brackets ++ [bkt] }) := by
  unfold SubstanceGroup.addBracket
  rw [h]

theorem addAtomWithIdx_live (w : World) (self : SGroupRef) (g : SubstanceGroup) (idx : Nat)
    (hg : w.deref self = some g) (ho : g.owner = w.mol.addr) (hi : idx < w.mol.numAtoms) :
    SubstanceGroup.addAtomWithIdx w self idx
      = (.ok (), w.store self { g with atoms := g.atoms ++ [idx] }) := by
  unfold SubstanceGroup.addAtomWithIdx
  rw [hg]
  simp only [World.molAt, ho, if_true]
  rw [if_neg (by omega)]

theorem addAtomWithIdx_range (w : World) (self : SGroupRef) (g : SubstanceGroup) (idx : Nat)
    (hg : w.deref self = some g) (ho : g.owner = w.mol.addr) (hi : w.mol.numAtoms ≤ idx) :
    SubstanceGroup.addAtomWithIdx w self idx = (.error .indexError, w) := by
  unfold SubstanceGroup.addAtomWithIdx
  rw [hg]
  simp only [World.molAt, ho, if_true]
  rw [if_pos hi]

theorem store_mol_addr (w : World) (r : SGroupRef) (g1 : SubstanceGroup) :
    (w.store r g1).mol.addr = w.mol.addr ∧ (w.store r g1).mol.numAtoms = w.mol.numAtoms := by
  cases r <;> exact ⟨rfl, rfl⟩

theorem deref_cleared (w : World) (i : Nat) :
    w.callClearMolSubstanceGroups.deref (.inMol i) = none := by
  simp [World.callClearMolSubstanceGroups, World.withMol, clearMolSubstanceGroups, World.deref]

/-! ## The registry: lookup, clear, create -/

/-- C1: `getMolSubstanceGroupWithIdx` on a molecule with `n` groups fails
exactly when `idx >= n`, its only failure is the index error, and for
`idx < n` it returns the address of element `idx` of the molecule's vector,
at which the group stored at position `idx` is found. -/
theorem getMolSubstanceGroupWithIdx_contract (w : World) (idx : Nat) :
    (getMolSubstanceGroupWithIdx w.mol idx = .error .indexError ↔
      (getSubstanceGroups w.mol).length ≤ idx) ∧
    (∀ e, getMolSubstanceGroupWithIdx w.mol idx = .error e → e = .indexError) ∧
    (idx < (getSubstanceGroups w.mol).length →
      ∃ g, (getSubstanceGroups w.mol)[idx]? = some g ∧
        getMolSubstanceGroupWithIdx w.mol idx = .ok (.inMol idx) ∧
        w.deref (.inMol idx) = some g) := by
  unfold getMolSubstanceGroupWithIdx getSubstanceGroups
  refine ⟨?_, ?_, ?_⟩
  · by_cases h : idx ≥ w.mol.sgroups.length
    · simp [h]
    · simp only [if_neg h]
      constructor
      · intro hc; cases hc
      · intro hc; exact absurd hc h
  · intro e he
    by_cases h : idx ≥ w.mol.sgroups.length
    · simp only [if_pos h] at he
      cases he; rfl
    · simp only [if_neg h] at he
      cases he
  · intro h
    refine ⟨w.mol.sgroups[idx], List.getElem?_eq_getElem h, ?_, ?_⟩
    · have h2 : ¬ idx ≥ w.mol.sgroups.length := by omega
      simp only [if_neg h2]
    · exact List.getElem?_eq_getElem h

/-- Witness of C1 on the two-group example: index 1 is found, and it is the
"DAT" group. -/
theorem getMolSubstanceGroupWithIdx_contract_witness :
    1 < (getSubstanceGroups exWorld2.mol).length ∧
    getMolSubstanceGroupWithIdx exWorld2.mol 1 = .ok (.inMol 1) ∧
    (exWorld2.deref (.inMol 1)).map (fun g => g.type) = some "DAT" :=
  ⟨by decide,
   ((getMolSubstanceGroupWithIdx_contract exWorld2 1).2.2 (by decide)).elim
     (fun _ h => h.2.1),
   by decide⟩

/-- C6: after `clearMolSubstanceGroups` the registry is empty whatever it
held: `getMolSubstanceGroups` returns the empty sequence and
`getMolSubstanceGroupWithIdx` fails with the index error for every index,
index 0 included; the rest of the molecule is untouched. -/
theorem clearMolSubstanceGroups_empties (mol : ROMol) :
    getSubstanceGroups (clearMolSubstanceGroups mol) = [] ∧
    getMolSubstanceGroups (clearMolSubstanceGroups mol) = [] ∧
    (∀ idx, getMolSubstanceGroupWithIdx (clearMolSubstanceGroups mol) idx = .error .indexError) ∧
    getMolSubstanceGroupWithIdx (clearMolSubstanceGroups mol) 0 = .error .indexError ∧
    (clearMolSubstanceGroups mol).addr = mol.addr ∧
    (clearMolSubstanceGroups mol).numAtoms = mol.numAtoms ∧
    (clearMolSubstanceGroups mol).numBonds = mol.numBonds := by
  refine ⟨rfl, rfl, ?_, rfl, rfl, rfl, rfl⟩
  intro idx
  simp [getMolSubstanceGroupWithIdx, getSubstanceGroups, clearMolSubstanceGroups]

/-- C9: `createMolSubstanceGroup` is total (it has no failing path); on a
molecule with `n` groups it leaves the `n` existing entries as they were and
in the same order, makes the registry hold `n + 1` groups, returns the address
of position `n`, where the new group of the given type lies, and
`getMolSubstanceGroupWithIdx` at `n` afterwards succeeds with that same
address. -/
theorem createMolSubstanceGroup_appends (mol : ROMol) (t : String) :
    (getSubstanceGroups (createMolSubstanceGroup mol t).2).length
      = (getSubstanceGroups mol).length + 1 ∧
    (getSubstanceGroups (createMolSubstanceGroup mol t).2).take (getSubstanceGroups mol).length
      = getSubstanceGroups mol ∧
    (∀ i, i < (getSubstanceGroups mol).length →
      (getSubstanceGroups (createMolSubstanceGroup mol t).2)[i]? = (getSubstanceGroups mol)[i]?) ∧
    (createMolSubstanceGroup mol t).1 = .inMol (getSubstanceGroups mol).length ∧
    (getSubstanceGroups (createMolSubstanceGroup mol t).2)[(getSubstanceGroups mol).length]?
      = some (SubstanceGroup.new mol.addr t) ∧
    getMolSubstanceGroupWithIdx (createMolSubstanceGroup mol t).2 (getSubstanceGroups mol).length
      = .ok (createMolSubstanceGroup mol t).1 ∧
    (createMolSubstanceGroup mol t).2.addr = mol.addr ∧
    (createMolSubstanceGroup mol t).2.numAtoms = mol.numAtoms ∧
    (createMolSubstanceGroup mol t).2.numBonds = mol.numBonds := by
  have hlen : (getSubstanceGroups (createMolSubstanceGroup mol t).2).length
      = (getSubstanceGroups mol).length + 1 := by
    simp [createMolSubstanceGroup, addSubstanceGroup, getSubstanceGroups]
  have hfst : (createMolSubstanceGroup mol t).1 = .inMol (getSubstanceGroups mol).length := by
    simp [createMolSubstanceGroup, addSubstanceGroup, getSubstanceGroups]
  refine ⟨hlen, ?_, ?_, hfst, ?_, ?_, rfl, rfl, rfl⟩
  · simp [createMolSubstanceGroup, addSubstanceGroup, getSubstanceGroups]
  · intro i hi
    simp only [getSubstanceGroups] at hi
    simp only [createMolSubstanceGroup, addSubstanceGroup, getSubstanceGroups]
    exact List.getElem?_append_left hi
  · simp [createMolSubstanceGroup, addSubstanceGroup, getSubstanceGroups, SubstanceGroup.new]
  · rw [hfst]
    unfold getMolSubstanceGroupWithIdx
    have h2 : ¬ (getSubstanceGroups mol).length ≥
        (getSubstanceGroups (createMolSubstanceGroup mol t).2).length := by
      rw [hlen]; omega
    simp only [if_neg h2]

/-- Witness of C9 on the example molecule: creating "DAT" after "SRU" returns
the address of position 1 and leaves "SRU" at position 0. -/
theorem createMolSubstanceGroup_appends_witness :
    0 < (getSubstanceGroups (createMolSubstanceGroup exMol "SRU").2).length ∧
    (getSubstanceGroups exWorld2.mol)[0]?
      = (getSubstanceGroups (createMolSubstanceGroup exMol "SRU").2)[0]? :=
  ⟨by decide,
   (createMolSubstanceGroup_appends (createMolSubstanceGroup exMol "SRU").2 "DAT").2.2.1 0
     (by decide)⟩

/-- C4: the group returned by `createMolSubstanceGroup` on a molecule with `n`
groups reports the molecule it was created in as its owner and `n`, the
position at which it was appended, as its index in that molecule. -/
theorem createMolSubstanceGroup_owner_index (w : World) (t : String) :
    SubstanceGroup.getOwningMol (w.withMol (createMolSubstanceGroup w.mol t).2)
        (createMolSubstanceGroup w.mol t).1 = .ok w.mol.addr ∧
    (w.withMol (createMolSubstanceGroup w.mol t).2).mol.addr = w.mol.addr ∧
    (w.withMol (createMolSubstanceGroup w.mol t).2).molAt w.mol.addr
      = some (createMolSubstanceGroup w.mol t).2 ∧
    SubstanceGroup.getIndexInMol (w.withMol (createMolSubstanceGroup w.mol t).2)
        (createMolSubstanceGroup w.mol t).1 = .ok (getSubstanceGroups w.mol).length := by
  have hfst : (createMolSubstanceGroup w.mol t).1 = .inMol (getSubstanceGroups w.mol).length := by
    simp [createMolSubstanceGroup, addSubstanceGroup, getSubstanceGroups]
  refine ⟨?_, rfl, ?_, ?_⟩
  · rw [hfst]
    simp [SubstanceGroup.getOwningMol, World.deref, World.withMol, createMolSubstanceGroup,
      addSubstanceGroup, getSubstanceGroups, SubstanceGroup.new]
  · simp [World.molAt, World.withMol, createMolSubstanceGroup, addSubstanceGroup]
  · rw [hfst]
    apply getIndexInMol_inMol_lt
    simp [World.withMol, createMolSubstanceGroup, addSubstanceGroup, getSubstanceGroups]

/-! ## Brackets -/

/-- C2 (as amended): for every group reference and every point sequence whose
length is neither 2 nor 3, `addBracketHelper` fails and leaves the world, the
bracket sequence of the group included, exactly as it was; the failure is the
value error whenever the length fits `unsigned int`, and the overflow error of
the length conversion otherwise. -/
theorem addBracketHelper_rejects (w : World) (self : SGroupRef) (pts : List Point3D)
    (h2 : pts.length ≠ 2) (h3 : pts.length ≠ 3) :
    (∃ e, (addBracketHelper w self pts).1 = .error e) ∧
    (addBracketHelper w self pts).2 = w ∧
    (addBracketHelper w self pts).2.deref self = w.deref self ∧
    (pts.length < 4294967296 →
      (addBracketHelper w self pts).1
        = .error (.valueError "pts object have a length of 2 or 3")) ∧
    (4294967296 ≤ pts.length →
      (addBracketHelper w self pts).1 = .error .overflowError) := by
  by_cases h : pts.length < 4294967296
  · rw [addBracketHelper_badlen w self pts h h2 h3]
    exact ⟨⟨_, rfl⟩, rfl, rfl, fun _ => rfl, fun hc => absurd h (by omega)⟩
  · rw [addBracketHelper_overflow w self pts (by omega)]
    exact ⟨⟨_, rfl⟩, rfl, rfl, fun hc => absurd hc h, fun _ => rfl⟩

/-- Witness of C2 (as amended): one point and four points are rejected with
the value error and the "SRU" group keeps its (empty) bracket sequence. -/
theorem addBracketHelper_rejects_witness :
    ([⟨1, 2, 3⟩] : List Point3D).length ≠ 2 ∧ ([⟨1, 2, 3⟩] : List Point3D).length ≠ 3 ∧
    (addBracketHelper exWorld2 (.inMol 0) [⟨1, 2, 3⟩]).1
      = .error (.valueError "pts object have a length of 2 or 3") ∧
    (addBracketHelper exWorld2 (.inMol 0) [⟨1, 2, 3⟩]).2 = exWorld2 :=
  ⟨by decide, by decide,
   (addBracketHelper_rejects exWorld2 (.inMol 0) [⟨1, 2, 3⟩] (by decide) (by decide)).2.2.2.1
     (by decide),
   (addBracketHelper_rejects exWorld2 (.inMol 0) [⟨1, 2, 3⟩] (by decide) (by decide)).2.1⟩

/-- Counterexample to C2 as stated: a sequence of 2^32 + 2 points has a length
that is neither 2 nor 3, yet the call does not fail with the value error: the
conversion of the length to `unsigned int` fails first. -/
theorem addBracketHelper_rejects_counterexample :
    (List.replicate 4294967298 Point3D.origin).length ≠ 2 ∧
    (List.replicate 4294967298 Point3D.origin).length ≠ 3 ∧
    (addBracketHelper exWorld2 (.inMol 0) (List.replicate 4294967298 Point3D.origin)).1
      = .error .overflowError ∧
    (addBracketHelper exWorld2 (.inMol 0) (List.replicate 4294967298 Point3D.origin)).1
      ≠ .error (.valueError "pts object have a length of 2 or 3") := by
  have hlen : (List.replicate 4294967298 Point3D.origin).length = 4294967298 :=
    List.length_replicate _ _
  have hres := addBracketHelper_overflow exWorld2 (.inMol 0)
    (List.replicate 4294967298 Point3D.origin) (by rw [hlen]; omega)
  refine ⟨by rw [hlen]; omega, by rw [hlen]; omega, by rw [hres], ?_⟩
  rw [hres]
  intro hc
  cases hc

/-- C3: for every live group and every sequence of exactly 2 or exactly 3
points, `addBracketHelper` succeeds; afterwards the bracket sequence of the
group is one longer, its last element is the new bracket, the brackets stored
before are its prefix, unchanged and in the same order, and the other fields
of the group are as before. -/
theorem addBracketHelper_appends (w : World) (self : SGroupRef) (g : SubstanceGroup)
    (pts : List Point3D) (hg : w.deref self = some g)
    (hlen : pts.length = 2 ∨ pts.length = 3) :
    (addBracketHelper w self pts).1 = .ok () ∧
    ∃ g1, (addBracketHelper w self pts).2.deref self = some g1 ∧
      g1.brackets.length = g.brackets.length + 1 ∧
      g1.brackets.getLast? = some (addBracketHelper.bracket pts.length pts) ∧
      g1.brackets.take g.brackets.length = g.brackets ∧
      g1.brackets = g.brackets ++ [addBracketHelper.bracket pts.length pts] ∧
      g1.owner = g.owner ∧ g1.type = g.type ∧ g1.atoms = g.atoms ∧
      g1.patoms = g.patoms ∧ g1.bonds = g.bonds := by
  rw [addBracketHelper_goodlen w self pts hlen, addBracket_live w self g _ hg]
  refine ⟨rfl, _, deref_store_same w self g _ hg, ?_, ?_, ?_, rfl, rfl, rfl, rfl, rfl, rfl⟩
  · simp
  · simp
  · simp

/-- Witness of C3: two points given to the "SRU" group of the example. -/
theorem addBracketHelper_appends_witness :
    exWorld2.deref (.inMol 0) = some (SubstanceGroup.new 7 "SRU") ∧
    (addBracketHelper exWorld2 (.inMol 0) [⟨1, 2, 3⟩, ⟨4, 5, 6⟩]).1 = .ok () :=
  ⟨by decide,
   (addBracketHelper_appends exWorld2 (.inMol 0) (SubstanceGroup.new 7 "SRU")
     [⟨1, 2, 3⟩, ⟨4, 5, 6⟩] (by decide) (by decide)).1⟩

/-- C10: the bracket that `addBracketHelper` appends has three point slots;
for an accepted input slot `i` holds `pts[i]` for every `i` below the length,
for a 2-point input the third slot holds the default point (0, 0, 0), and the
call with two points has the same outcome as the call with these two points
followed by the origin. -/
theorem addBracketHelper_bracket_slots (w : World) (self : SGroupRef) (g : SubstanceGroup)
    (pts : List Point3D) (hg : w.deref self = some g)
    (hlen : pts.length = 2 ∨ pts.length = 3) :
    (∃ g1, (addBracketHelper w self pts).2.deref self = some g1 ∧
      g1.brackets = g.brackets ++ [addBracketHelper.bracket pts.length pts]) ∧
    (∀ i, i < pts.length → (addBracketHelper.bracket pts.length pts).get? i = pts[i]?) ∧
    (addBracketHelper.bracket pts.length pts).get? 3 = none ∧
    (pts.length = 2 →
      (addBracketHelper.bracket pts.length pts).get? 2 = some ⟨0, 0, 0⟩) ∧
    (∀ a b, pts = [a, b] →
      addBracketHelper w self pts = addBracketHelper w self [a, b, ⟨0, 0, 0⟩]) := by
  refine ⟨?_, ?_, rfl, ?_, ?_⟩
  · rw [addBracketHelper_goodlen w self pts hlen, addBracket_live w self g _ hg]
    exact ⟨_, deref_store_same w self g _ hg, rfl⟩
  · intro i hi
    rcases hlen with h | h
    · obtain ⟨a, b, rfl⟩ := List.length_eq_two.mp h
      simp only [List.length_cons, List.length_nil] at hi ⊢
      rw [bracket_two]
      have hi2 : i = 0 ∨ i = 1 := by omega
      rcases hi2 with rfl | rfl <;> rfl
    · obtain ⟨a, b, c, rfl⟩ := List.length_eq_three.mp h
      simp only [List.length_cons, List.length_nil] at hi ⊢
      rw [bracket_three]
      have hi3 : i = 0 ∨ i = 1 ∨ i = 2 := by omega
      rcases hi3 with rfl | rfl | rfl <;> rfl
  · intro h
    obtain ⟨a, b, rfl⟩ := List.length_eq_two.mp h
    simp only [List.length_cons, List.length_nil]
    rw [bracket_two]
    rfl
  · intro a b hab
    subst hab
    rw [addBracketHelper_goodlen w self [a, b] (Or.inl rfl),
      addBracketHelper_goodlen w self [a, b, ⟨0, 0, 0⟩] (Or.inr rfl)]
    simp only [List.length_cons, List.length_nil]
    rw [bracket_two, bracket_three]
    rfl

/-- Witness of C10: the bracket stored for two points has the origin in its
third slot. -/
theorem addBracketHelper_bracket_slots_witness :
    exWorld2.deref (.inMol 0) = some (SubstanceGroup.new 7 "SRU") ∧
    (addBracketHelper.bracket 2 [⟨1, 2, 3⟩, ⟨4, 5, 6⟩]).get? 2 = some ⟨0, 0, 0⟩ :=
  ⟨by decide,
   (addBracketHelper_bracket_slots exWorld2 (.inMol 0) (SubstanceGroup.new 7 "SRU")
     [⟨1, 2, 3⟩, ⟨4, 5, 6⟩] (by decide) (by decide)).2.2.2.1 (by decide)⟩

/-! ## Handles: aliasing, atoms, and clearing -/

/-- C7: for every molecule and every position `i` that holds a group, the
handle returned by `getMolSubstanceGroupWithIdx` is the address of entry `i`:
`addBracketHelper` through it leaves every other entry, the number of entries
and the caller's vectors as they were and, when it succeeds, changes entry
`i`; the vector returned by `getMolSubstanceGroups` holds, when returned, the
same groups in the same order as the registry, and `addBracketHelper` on its
element `i` changes that element and leaves the molecule unchanged. -/
theorem two_tier_access (w : World) (i : Nat) (g : SubstanceGroup) (pts : List Point3D)
    (hg : (getSubstanceGroups w.mol)[i]? = some g) :
    getMolSubstanceGroupWithIdx w.mol i = .ok (.inMol i) ∧
    (∀ j, j ≠ i →
      (getSubstanceGroups (addBracketHelper w (.inMol i) pts).2.mol)[j]?
        = (getSubstanceGroups w.mol)[j]?) ∧
    (getSubstanceGroups (addBracketHelper w (.inMol i) pts).2.mol).length
      = (getSubstanceGroups w.mol).length ∧
    (addBracketHelper w (.inMol i) pts).2.vects = w.vects ∧
    (pts.length = 2 ∨ pts.length = 3 →
      (addBracketHelper w (.inMol i) pts).1 = .ok () ∧
      (getSubstanceGroups (addBracketHelper w (.inMol i) pts).2.mol)[i]?
        = some { g with brackets := g.brackets ++ [addBracketHelper.bracket pts.length pts] }) ∧
    w.callGetMolSubstanceGroups.2.vects[w.callGetMolSubstanceGroups.1]?
      = some (getSubstanceGroups w.mol) ∧
    w.callGetMolSubstanceGroups.2.mol = w.mol ∧
    (addBracketHelper w.callGetMolSubstanceGroups.2
        (.inVect w.callGetMolSubstanceGroups.1 i) pts).2.mol = w.mol ∧
    (pts.length = 2 ∨ pts.length = 3 →
      (addBracketHelper w.callGetMolSubstanceGroups.2
        (.inVect w.callGetMolSubstanceGroups.1 i) pts).1 = .ok () ∧
      (addBracketHelper w.callGetMolSubstanceGroups.2
        (.inVect w.callGetMolSubstanceGroups.1 i) pts).2.deref
          (.inVect w.callGetMolSubstanceGroups.1 i)
        = some { g with brackets := g.brackets ++ [addBracketHelper.bracket pts.length pts] }) := by
  simp only [getSubstanceGroups] at hg ⊢
  have hlt : i < w.mol.sgroups.length := (List.getElem?_eq_some.mp hg).1
  have hd : w.deref (.inMol i) = some g := hg
  have hcopy : w.callGetMolSubstanceGroups.2.deref (.inVect w.callGetMolSubstanceGroups.1 i)
      = some g := by
    simp [World.callGetMolSubstanceGroups, World.deref, getMolSubstanceGroups,
      getSubstanceGroups, hg]
  refine ⟨?_, ?_, ?_, ?_, ?_, ?_, rfl, ?_, ?_⟩
  · unfold getMolSubstanceGroupWithIdx getSubstanceGroups
    rw [if_neg (by omega)]
  · intro j hj
    by_cases hgood : pts.length = 2 ∨ pts.length = 3
    · rw [addBracketHelper_goodlen _ _ pts hgood, addBracket_live _ _ g _ hd]
      exact deref_store_inMol_other w i j _ hj
    · rw [addBracketHelper_refused w (.inMol i) pts hgood]
  · by_cases hgood : pts.length = 2 ∨ pts.length = 3
    · rw [addBracketHelper_goodlen _ _ pts hgood, addBracket_live _ _ g _ hd]
      exact store_inMol_length w i _
    · rw [addBracketHelper_refused w (.inMol i) pts hgood]
  · by_cases hgood : pts.length = 2 ∨ pts.length = 3
    · rw [addBracketHelper_goodlen _ _ pts hgood, addBracket_live _ _ g _ hd]
      rfl
    · rw [addBracketHelper_refused w (.inMol i) pts hgood]
  · intro hgood
    rw [addBracketHelper_goodlen _ _ pts hgood, addBracket_live _ _ g _ hd]
    exact ⟨rfl, deref_store_same w (.inMol i) g _ hd⟩
  · simp [World.callGetMolSubstanceGroups, getMolSubstanceGroups, getSubstanceGroups]
  · by_cases hgood : pts.length = 2 ∨ pts.length = 3
    · rw [addBracketHelper_goodlen _ _ pts hgood, addBracket_live _ _ g _ hcopy]
      rfl
    · rw [addBracketHelper_refused _ _ pts hgood]
      rfl
  · intro hgood
    rw [addBracketHelper_goodlen _ _ pts hgood, addBracket_live _ _ g _ hcopy]
    exact ⟨rfl, deref_store_same _ _ g _ hcopy⟩

/-- Witness of C7 on the two-group example: a bracket added through the handle
of entry 0 shows in the registry, one added to element 0 of the copy does
not. -/
theorem two_tier_access_witness :
    (getSubstanceGroups exWorld2.mol)[0]? = some (SubstanceGroup.new 7 "SRU") ∧
    (addBracketHelper exWorld2.callGetMolSubstanceGroups.2
        (.inVect exWorld2.callGetMolSubstanceGroups.1 0) [⟨1, 2, 3⟩, ⟨4, 5, 6⟩]).2.mol
      = exWorld2.mol ∧
    (addBracketHelper exWorld2 (.inMol 0) [⟨1, 2, 3⟩, ⟨4, 5, 6⟩]).2.mol ≠ exWorld2.mol :=
  ⟨by decide,
   (two_tier_access exWorld2 0 (SubstanceGroup.new 7 "SRU") [⟨1, 2, 3⟩, ⟨4, 5, 6⟩]
     (by decide)).2.2.2.2.2.2.2.1,
   by decide⟩

/-- C8: for a group of the molecule, `addAtomWithIdx` with an index not below
the number of atoms fails with the index error and changes nothing, so
`getAtoms` is as before; with an index below it the call succeeds and
`getAtoms` is the previous sequence with the index appended, so that adding
the same index twice yields two entries.  Scenario: with 3 atoms and a new
"SRU" group, adding 1 then 2 gives `[1, 2]`, and adding 5 fails. -/
theorem addAtomWithIdx_contract (w : World) (self : SGroupRef) (g : SubstanceGroup)
    (idx : Nat) (hg : w.deref self = some g) (ho : g.owner = w.mol.addr) :
    SubstanceGroup.getAtoms w self = .ok g.atoms ∧
    (w.mol.numAtoms ≤ idx →
      SubstanceGroup.addAtomWithIdx w self idx = (.error .indexError, w) ∧
      SubstanceGroup.getAtoms (SubstanceGroup.addAtomWithIdx w self idx).2 self = .ok g.atoms) ∧
    (idx < w.mol.numAtoms →
      (SubstanceGroup.addAtomWithIdx w self idx).1 = .ok () ∧
      SubstanceGroup.getAtoms (SubstanceGroup.addAtomWithIdx w self idx).2 self
        = .ok (g.atoms ++ [idx]) ∧
      SubstanceGroup.getAtoms
        (SubstanceGroup.addAtomWithIdx (SubstanceGroup.addAtomWithIdx w self idx).2 self idx).2
        self = .ok (g.atoms ++ [idx, idx])) ∧
    SubstanceGroup.getAtoms
      (SubstanceGroup.addAtomWithIdx
        (SubstanceGroup.addAtomWithIdx (exWorld.callCreateMolSubstanceGroup "SRU").2
          (exWorld.callCreateMolSubstanceGroup "SRU").1 1).2
        (exWorld.callCreateMolSubstanceGroup "SRU").1 2).2
      (exWorld.callCreateMolSubstanceGroup "SRU").1 = .ok [1, 2] ∧
    (SubstanceGroup.addAtomWithIdx
      (SubstanceGroup.addAtomWithIdx
        (SubstanceGroup.addAtomWithIdx (exWorld.callCreateMolSubstanceGroup "SRU").2
          (exWorld.callCreateMolSubstanceGroup "SRU").1 1).2
        (exWorld.callCreateMolSubstanceGroup "SRU").1 2).2
      (exWorld.callCreateMolSubstanceGroup "SRU").1 5).1 = .error .indexError := by
  have hget : SubstanceGroup.getAtoms w self = .ok g.atoms := by
    unfold SubstanceGroup.getAtoms
    rw [hg]
  refine ⟨hget, ?_, ?_, by decide, by decide⟩
  · intro hi
    rw [addAtomWithIdx_range w self g idx hg ho hi]
    exact ⟨rfl, hget⟩
  · intro hi
    have h1 := addAtomWithIdx_live w self g idx hg ho hi
    have hd1 := deref_store_same w self g { g with atoms := g.atoms ++ [idx] } hg
    have hs := store_mol_addr w self { g with atoms := g.atoms ++ [idx] }
    have h2 := addAtomWithIdx_live (w.store self { g with atoms := g.atoms ++ [idx] }) self
      { g with atoms := g.atoms ++ [idx] } idx hd1 (by rw [hs.1]; exact ho) (by rw [hs.2]; exact hi)
    refine ⟨by rw [h1], ?_, ?_⟩
    · rw [h1]
      unfold SubstanceGroup.getAtoms
      rw [hd1]
    · rw [h1, h2]
      unfold SubstanceGroup.getAtoms
      rw [deref_store_same _ self _ _ hd1]
      simp

/-- Witness of C8: in the two-group example, atom 2 is accepted by the "DAT"
group and atom 3 is refused. -/
theorem addAtomWithIdx_contract_witness :
    exWorld2.deref (.inMol 1) = some (SubstanceGroup.new 7 "DAT") ∧
    (SubstanceGroup.new 7 "DAT").owner = exWorld2.mol.addr ∧
    (SubstanceGroup.addAtomWithIdx exWorld2 (.inMol 1) 2).1 = .ok () ∧
    SubstanceGroup.addAtomWithIdx exWorld2 (.inMol 1) 3 = (.error .indexError, exWorld2) :=
  ⟨by decide, by decide,
   ((addAtomWithIdx_contract exWorld2 (.inMol 1) (SubstanceGroup.new 7 "DAT") 2
     (by decide) (by decide)).2.2.1 (by decide)).1,
   by decide⟩

/-- Counterexample to C5 as stated.  A handle is the address of a registry
slot and nothing else: after create, clear, create, the handle of the first
group designates the second one and every operation on it succeeds; and right
after the clear, `addBracketHelper` with one point fails with the value error,
not with InvalidState. -/
theorem clear_invalidates_counterexample :
    ((((exWorld.callCreateMolSubstanceGroup "SRU").2.callClearMolSubstanceGroups
        ).callCreateMolSubstanceGroup "DAT").2.call
          (exWorld.callCreateMolSubstanceGroup "SRU").1 .getIndexInMol).1
      = .ok (.nat 0) ∧
    ((((exWorld.callCreateMolSubstanceGroup "SRU").2.callClearMolSubstanceGroups
        ).callCreateMolSubstanceGroup "DAT").2.call
          (exWorld.callCreateMolSubstanceGroup "SRU").1 .getAtoms).1
      = .ok (.nats []) ∧
    ((((exWorld.callCreateMolSubstanceGroup "SRU").2.callClearMolSubstanceGroups
        ).callCreateMolSubstanceGroup "DAT").2.call
          (exWorld.callCreateMolSubstanceGroup "SRU").1 (.addAtomWithIdx 1)).1
      = .ok .none ∧
    ((((exWorld.callCreateMolSubstanceGroup "SRU").2.callClearMolSubstanceGroups
        ).callCreateMolSubstanceGroup "DAT").2.call
          (exWorld.callCreateMolSubstanceGroup "SRU").1
          (.addBracket [⟨1, 2, 3⟩, ⟨4, 5, 6⟩])).1
      = .ok .none ∧
    (((exWorld.callCreateMolSubstanceGroup "SRU").2.callClearMolSubstanceGroups
        ).call (exWorld.callCreateMolSubstanceGroup "SRU").1 (.addBracket [⟨1, 2, 3⟩])).1
      = .error (.valueError "pts object have a length of 2 or 3") := by
  decide

/-- C5 (as amended): after `clearMolSubstanceGroups` the registry is empty, a
handle into it (the address of position `i`) designates no group, and
`getMolSubstanceGroupWithIdx` at `i` fails with the index error, so the handle
cannot be obtained again.  No liveness information is kept in a handle:
`addBracketHelper` on it with a number of points other than 2 or 3 is refused
before the group is touched, with the same error as before the clear (the
value error when the number is below 2^32, the overflow error of the length
conversion when it is 2^32 or more), and changes nothing; and a
`createMolSubstanceGroup` that follows the clear returns the handle of
position 0, which then designates the new group, while the handles of the
other positions still designate no group. -/
theorem clear_vacates (w : World) (i : Nat) (pts : List Point3D) (t : String) :
    getSubstanceGroups w.callClearMolSubstanceGroups.mol = [] ∧
    w.callClearMolSubstanceGroups.deref (.inMol i) = none ∧
    getMolSubstanceGroupWithIdx w.callClearMolSubstanceGroups.mol i = .error .indexError ∧
    (pts.length ≠ 2 → pts.length ≠ 3 → pts.length < 4294967296 →
      addBracketHelper w.callClearMolSubstanceGroups (.inMol i) pts
        = (.error (.valueError "pts object have a length of 2 or 3"),
           w.callClearMolSubstanceGroups)) ∧
    (4294967296 ≤ pts.length →
      addBracketHelper w.callClearMolSubstanceGroups (.inMol i) pts
        = (.error .overflowError, w.callClearMolSubstanceGroups)) ∧
    (pts.length ≠ 2 → pts.length ≠ 3 →
      (addBracketHelper w.callClearMolSubstanceGroups (.inMol i) pts).1
        = (addBracketHelper w (.inMol i) pts).1) ∧
    (w.callClearMolSubstanceGroups.callCreateMolSubstanceGroup t).1 = .inMol 0 ∧
    (w.callClearMolSubstanceGroups.callCreateMolSubstanceGroup t).2.deref (.inMol 0)
      = some (SubstanceGroup.new w.mol.addr t) ∧
    (0 < i →
      (w.callClearMolSubstanceGroups.callCreateMolSubstanceGroup t).2.deref (.inMol i)
        = none) := by
  refine ⟨rfl, deref_cleared w i, ?_, ?_, ?_, ?_, ?_, ?_, ?_⟩
  · simp [getMolSubstanceGroupWithIdx, getSubstanceGroups, World.callClearMolSubstanceGroups,
      World.withMol, clearMolSubstanceGroups]
  · intro h2 h3 hfit
    exact addBracketHelper_badlen _ _ pts hfit h2 h3
  · intro hbig
    exact addBracketHelper_overflow _ _ pts hbig
  · intro h2 h3
    by_cases hfit : pts.length < 4294967296
    · rw [addBracketHelper_badlen _ _ pts hfit h2 h3, addBracketHelper_badlen w _ pts hfit h2 h3]
    · rw [addBracketHelper_overflow _ _ pts (by omega),
        addBracketHelper_overflow w _ pts (by omega)]
  · simp [World.callCreateMolSubstanceGroup, World.callClearMolSubstanceGroups, World.withMol,
      createMolSubstanceGroup, addSubstanceGroup, getSubstanceGroups, clearMolSubstanceGroups]
  · simp [World.callCreateMolSubstanceGroup, World.callClearMolSubstanceGroups, World.withMol,
      createMolSubstanceGroup, addSubstanceGroup, clearMolSubstanceGroups, World.deref,
      SubstanceGroup.new]
  · intro hi
    obtain ⟨k, rfl⟩ : ∃ k, i = k + 1 := ⟨i - 1, by omega⟩
    simp [World.callCreateMolSubstanceGroup, World.callClearMolSubstanceGroups, World.withMol,
      createMolSubstanceGroup, addSubstanceGroup, clearMolSubstanceGroups, World.deref]

/-- Witness of C5 (as amended): after the two-group example is cleared, one
point given to the old handle of entry 1 is refused with the value error, and
after a new "SRU" group is created that handle still designates no group. -/
theorem clear_vacates_witness :
    ([⟨1, 2, 3⟩] : List Point3D).length ≠ 2 ∧ ([⟨1, 2, 3⟩] : List Point3D).length ≠ 3 ∧
    addBracketHelper exWorld2.callClearMolSubstanceGroups (.inMol 1) [⟨1, 2, 3⟩]
      = (.error (.valueError "pts object have a length of 2 or 3"),
         exWorld2.callClearMolSubstanceGroups) ∧
    (exWorld2.callClearMolSubstanceGroups.callCreateMolSubstanceGroup "SRU").2.deref (.inMol 1)
      = none :=
  ⟨by decide, by decide,
   (clear_vacates exWorld2 1 [⟨1, 2, 3⟩] "SRU").2.2.2.1 (by decide) (by decide) (by decide),
   (clear_vacates exWorld2 1 [⟨1, 2, 3⟩] "SRU").2.2.2.2.2.2.2.2 (by decide)⟩

end RDKit
